import Mathlib

/-!
Verification of the OpenTAKServer hostname-resolution and QR-validation core.

Shallow embedding of `opentakserver/hostname_resolver.py` (class
`HostnameResolver`) and `tests/qr_validation_utils.py` (class
`QRValidationUtils`).  Python strings are modelled as `List Char`;
the Python string operations used by the source (`strip`, `lower`,
`split`, `int(...)`) and the anchored regular expressions of the source
are modelled by executable functions below.  Timestamps are modelled as
integers (seconds); the network boundary of the external-IP prober is
modelled by an explicit outcome per configured service.
-/

set_option maxRecDepth 20000

namespace OTS

/-- ASCII whitespace as recognised by Python `str.strip()` (the ASCII
subset, which is all that the modelled inputs use) and by C `isspace`. -/
def isPyWs (c : Char) : Bool :=
  c = ' ' || c = '\t' || c = '\n' || c = '\r' || c = '\x0b' || c = '\x0c'

/-- Python `s.strip()`: remove leading and trailing whitespace. -/
def pyStrip (l : List Char) : List Char :=
  ((l.dropWhile isPyWs).reverse.dropWhile isPyWs).reverse

/-- ASCII lowercasing of one character, as Python `str.lower()` does on
the ASCII inputs modelled here. -/
def pyLowerChar (c : Char) : Char :=
  if 'A' ≤ c && c ≤ 'Z' then Char.ofNat (c.toNat + 32) else c

/-- Python `s.lower()` (ASCII). -/
def pyLower (l : List Char) : List Char := l.map pyLowerChar

/-- Python `s.split(sep)` for a one-character separator: splits on every
occurrence, keeping empty parts (`"".split(".") == [""]`). -/
def splitOnChar (sep : Char) : List Char → List (List Char)
  | [] => [[]]
  | c :: rest =>
    if c = sep then [] :: splitOnChar sep rest
    else
      match splitOnChar sep rest with
      | [] => [[c]]
      | p :: ps => (c :: p) :: ps

/-- Python `s.split(sep, 1)` when `sep` occurs: the part before the first
occurrence and the part after it; `none` when `sep` does not occur. -/
def splitFirst (sep : Char) : List Char → Option (List Char × List Char)
  | [] => none
  | c :: rest =>
    if c = sep then some ([], rest)
    else
      match splitFirst sep rest with
      | none => none
      | some (a, b) => some (c :: a, b)

/-- Decimal value of a digit string (caller guarantees digits only). -/
def digitsToNat (l : List Char) : Nat :=
  l.foldl (fun acc c => acc * 10 + (c.toNat - '0'.toNat)) 0

/-- Python `int(part)` restricted to the shapes the source feeds it
(digit strings, possibly with surrounding whitespace): strips
whitespace, then requires a non-empty all-digit string. `none` models a
`ValueError`. -/
def pyIntOpt (l : List Char) : Option Nat :=
  let t := pyStrip l
  if t ≠ [] && t.all Char.isDigit then some (digitsToNat t) else none

/-- An anchored Python regex `...$` (without `re.MULTILINE`) also
matches just before one trailing newline; this removes that optional
trailing newline before an exact-shape comparison. -/
def stripTrailingNl (l : List Char) : List Char :=
  match l.getLast? with
  | some c => if c = '\n' then l.dropLast else l
  | none => l

/-- Exact shape of the regex `^\d+\.\d+\.\d+\.\d+$` up to the trailing
newline: exactly four dot-separated non-empty digit fields. -/
def dottedQuadShape (l : List Char) : Bool :=
  let parts := splitOnChar '.' l
  parts.length = 4 && parts.all (fun p => p ≠ [] && p.all Char.isDigit)

/-- `re.match(r'^\d+\.\d+\.\d+\.\d+$', s)` as a Boolean. -/
def matchDottedQuad (l : List Char) : Bool :=
  dottedQuadShape (stripTrailingNl l)

/-! ### Localhost classifier (`HostnameResolver.is_localhost_address`) -/

/-- `re.match(r'^localhost$', s)`. -/
def matchLocalhostPat (l : List Char) : Bool :=
  stripTrailingNl l = "localhost".toList

/-- `re.match(r'^127\.\d+\.\d+\.\d+$', s)`. -/
def match127Pat (l : List Char) : Bool :=
  match splitOnChar '.' (stripTrailingNl l) with
  | [a, b, c, d] =>
    a = "127".toList &&
    (b ≠ [] && b.all Char.isDigit) &&
    (c ≠ [] && c.all Char.isDigit) &&
    (d ≠ [] && d.all Char.isDigit)
  | _ => false

/-- `re.match(r'^::1$', s)`. -/
def matchIpv6LoopbackPat (l : List Char) : Bool :=
  stripTrailingNl l = "::1".toList

/-- `re.match(r'^0\.0\.0\.0$', s)`. -/
def matchUnspecifiedPat (l : List Char) : Bool :=
  stripTrailingNl l = "0.0.0.0".toList

/-- `HostnameResolver.is_localhost_address`: empty is localhost; else
lowercase, strip, and try the four `LOCALHOST_PATTERNS` in order. -/
def is_localhost_address (hostname : List Char) : Bool :=
  if hostname = [] then true
  else
    let h := pyStrip (pyLower hostname)
    [matchLocalhostPat, match127Pat, matchIpv6LoopbackPat,
      matchUnspecifiedPat].any (fun p => p h)

/-! ### Hostname syntax validator (`HostnameResolver.validate_hostname`) -/

/-- Characters of the class `[a-zA-Z0-9.-]`. -/
def isHostChar (c : Char) : Bool :=
  c.isAlphanum || c = '.' || c = '-'

/-- `re.match(r'^[a-zA-Z0-9.-]+$', s)`. -/
def matchHostCharClass (l : List Char) : Bool :=
  let t := stripTrailingNl l
  t ≠ [] && t.all isHostChar

/-- `re.match(r'^[a-zA-Z0-9-]+$', s)` (the per-label class). -/
def matchLabelCharClass (l : List Char) : Bool :=
  let t := stripTrailingNl l
  t ≠ [] && t.all (fun c => c.isAlphanum || c = '-')

/-- One pass of the domain-label loop of `validate_hostname`:
`some msg` is the first failing check's message, `none` means the label
passes. -/
def checkLabel (label : List Char) : Option (List Char) :=
  if label = [] then some "Empty label in hostname".toList
  else if 63 < label.length then
    some "Label too long in hostname (max 63 characters)".toList
  else if ¬ matchLabelCharClass label then
    some "Invalid characters in hostname label".toList
  else if label.headD ' ' = '-' || label.getLastD ' ' = '-' then
    some "Hostname label cannot start or end with hyphen".toList
  else none

/-- The domain-label loop: first failing label wins. -/
def checkLabels : List (List Char) → Bool × List Char
  | [] => (true, [])
  | l :: ls =>
    match checkLabel l with
    | some msg => (false, msg)
    | none => checkLabels ls

/-- The dotted-quad range loop of `validate_hostname` and
`_is_valid_ip`: every dot-separated field must `int(...)`-parse to a
value at most 255 (a parse failure is a `ValueError`, also rejected). -/
def quadPartsInRange (l : List Char) : Bool :=
  (splitOnChar '.' l).all (fun p =>
    match pyIntOpt p with
    | some n => n ≤ 255
    | none => false)

/-- `HostnameResolver.validate_hostname`: returns `(is_valid, reason)`
with the source's checks applied in order, first failure winning.  The
input is stripped after the emptiness check, exactly as the source does. -/
def validate_hostname (hostname : List Char) : Bool × List Char :=
  if hostname = [] then (false, "Hostname is empty".toList)
  else if 253 < (pyStrip hostname).length then
    (false, "Hostname too long (max 253 characters)".toList)
  else if ¬ matchHostCharClass (pyStrip hostname) then
    (false, "Hostname contains invalid characters".toList)
  else if matchDottedQuad (pyStrip hostname) then
    if quadPartsInRange (pyStrip hostname) then (true, [])
    else (false, "Invalid IP address format".toList)
  else if (pyStrip hostname).contains '.' then
    checkLabels (splitOnChar '.' (pyStrip hostname))
  else (true, [])

/-- `HostnameResolver._is_valid_ip` (renamed without the underscore):
non-empty, matches the dotted-quad regex, and every field is in
`[0, 255]`. -/
def is_valid_ip (ip : List Char) : Bool :=
  if ip = [] then false
  else if matchDottedQuad ip then quadPartsInRange ip
  else false

/-! ### External-IP prober (`HostnameResolver.get_external_ip`) -/

/-- The single mutable cache slot (`_external_ip_cache` dict with keys
`ip`, `timestamp`, `service`). -/
structure CacheEntry where
  ip : List Char
  timestamp : Int
  service : List Char
  deriving DecidableEq

/-- What one configured probe service does when queried.  `raises`
covers every exception escaping `requests.get` / `raise_for_status`
(timeout, connection failure, non-2xx); `respond raw` is a completed
response, with `raw` the extracted candidate text before the final
`strip()` (the service-specific body parsing — plain text, or the
httpbin JSON `origin` extraction with its text fallback — is total in
the source, so a completed response always yields such a string). -/
inductive ServiceOutcome where
  | raises : ServiceOutcome
  | respond (raw : List Char) : ServiceOutcome
  deriving DecidableEq

/-- `HostnameResolver.EXTERNAL_IP_SERVICES`. -/
def EXTERNAL_IP_SERVICES : List (List Char) :=
  ["https://api.ipify.org".toList, "https://httpbin.org/ip".toList,
   "https://icanhazip.com".toList, "https://ifconfig.me/ip".toList]

/-- The per-service pairs (service URL, behaviour) the probe loop walks,
in the fixed configured order; `net i` is the network's behaviour at the
`i`-th service. -/
def servicePairs (net : Nat → ServiceOutcome) : List (List Char × ServiceOutcome) :=
  EXTERNAL_IP_SERVICES.enum.map (fun p => (p.2, net p.1))

/-- The `for service_url in EXTERNAL_IP_SERVICES` loop of
`get_external_ip`.  Returns (result, cache slot after the loop, number
of outbound requests issued).  Every exception is handled by advancing
to the next service; an invalid candidate also advances; the first
candidate passing `is_valid_ip` overwrites the cache and returns at
once. -/
def probe_loop (now : Int) :
    List (List Char × ServiceOutcome) → Option CacheEntry → Nat →
    Option (List Char) × Option CacheEntry × Nat
  | [], cache, count => (none, cache, count)
  | (url, outcome) :: rest, cache, count =>
    match outcome with
    | .raises => probe_loop now rest cache (count + 1)
    | .respond raw =>
      let ip := pyStrip raw
      if is_valid_ip ip then (some ip, some ⟨ip, now, url⟩, count + 1)
      else probe_loop now rest cache (count + 1)

/-- `HostnameResolver.get_external_ip`: consult the cache first (a hit
needs a present entry with `now - cachedAt < ttl` and issues no
request); otherwise walk the services.  Returns (result, cache slot
after the call, number of outbound requests issued). -/
def get_external_ip (ttl now : Int) (cache : Option CacheEntry)
    (net : Nat → ServiceOutcome) :
    Option (List Char) × Option CacheEntry × Nat :=
  match cache with
  | some e =>
    if now - e.timestamp < ttl then (some e.ip, some e, 0)
    else probe_loop now (servicePairs net) (some e) 0
  | none => probe_loop now (servicePairs net) none 0

/-- `HostnameResolver.clear_cache`: the cache slot after clearing. -/
def clear_cache : Option CacheEntry := none

/-! ### Priority chain (`HostnameResolver.get_external_hostname`) -/

/-- `HostnameResult` of `hostname_resolver.py`. -/
structure HostnameResult where
  hostname : List Char
  detection_method : List Char
  is_localhost : Bool
  is_external_accessible : Bool
  warnings : List (List Char)
  timestamp : Int
  deriving DecidableEq

/-- What the tier-3 call `self.get_external_ip()` does, seen from
`get_external_hostname`: it returns (`value`), or an exception escapes
it (`exc`, defensively caught at the call site). -/
inductive ProbeOutcome where
  | value (r : Option (List Char)) : ProbeOutcome
  | exc (msg : List Char) : ProbeOutcome
  deriving DecidableEq

/-- Python truthiness of an optional string: `none` for `None` and for
the empty string. -/
def pyTruthy (o : Option (List Char)) : Option (List Char) :=
  match o with
  | some s => if s = [] then none else some s
  | none => none

/-- `os.getenv('EXTERNAL_HOST') or os.getenv('SERVER_HOST')` followed by
the `if env_host:` truthiness test. -/
def envHost (external_host_env server_host_env : Option (List Char)) :
    Option (List Char) :=
  match pyTruthy external_host_env with
  | some h => some h
  | none => pyTruthy server_host_env

/-- `request_host.split(':')[0]`: everything before the first colon. -/
def stripPort (rh : List Char) : List Char :=
  rh.takeWhile (fun c => c ≠ ':')

/-- Tiers 4 and 5 of `get_external_hostname` (request host, then
fallback), with `warnings` the warnings accumulated by tier 3. -/
def requestHostTiers (now : Int) (warnings : List (List Char))
    (request_host : Option (List Char)) : HostnameResult :=
  let fallback := fun (ws : List (List Char)) =>
    let fallback_host :=
      match pyTruthy request_host with
      | some rh => stripPort rh
      | none => "localhost".toList
    { hostname := fallback_host
      detection_method := "fallback".toList
      is_localhost := true
      is_external_accessible := false
      warnings := ws ++
        ["Using fallback hostname - QR code may not work for external clients".toList,
         "Consider setting EXTERNAL_HOST environment variable or providing server_host parameter".toList]
      timestamp := now }
  match pyTruthy request_host with
  | some rh =>
    let clean_host := stripPort rh
    if is_localhost_address clean_host then
      fallback (warnings ++
        ["Request host is localhost - not suitable for external clients".toList])
    else
      let v := validate_hostname clean_host
      if v.1 then
        { hostname := clean_host
          detection_method := "request_host".toList
          is_localhost := false
          is_external_accessible := true
          warnings := warnings
          timestamp := now }
      else
        fallback (warnings ++
          ["Request host validation failed: ".toList ++ v.2])
  | none => fallback warnings

/-- `HostnameResolver.get_external_hostname`.  Environment state is
passed in as the two optional variable values read at call time; the
tier-3 probe call's behaviour is the `probe` parameter. -/
def get_external_hostname (now : Int) (disable_external_ip : Bool)
    (external_host_env server_host_env : Option (List Char))
    (probe : ProbeOutcome)
    (request_host override_host : Option (List Char)) : HostnameResult :=
  match pyTruthy override_host with
  | some o =>
    let il := is_localhost_address o
    let v := validate_hostname o
    { hostname := o
      detection_method := "override".toList
      is_localhost := il
      is_external_accessible := !il && v.1
      warnings :=
        (if v.1 then [] else
          ["Override hostname validation failed: ".toList ++ v.2]) ++
        (if il then
          ["Override hostname appears to be localhost - may not work for external clients".toList]
         else [])
      timestamp := now }
  | none =>
    match envHost external_host_env server_host_env with
    | some h =>
      let il := is_localhost_address h
      let v := validate_hostname h
      { hostname := h
        detection_method := "env_var".toList
        is_localhost := il
        is_external_accessible := !il && v.1
        warnings :=
          (if v.1 then [] else
            ["Environment hostname validation failed: ".toList ++ v.2]) ++
          (if il then
            ["Environment hostname appears to be localhost - may not work for external clients".toList]
           else [])
        timestamp := now }
    | none =>
      if disable_external_ip then requestHostTiers now [] request_host
      else
        match probe with
        | .value (some ip) =>
          { hostname := ip
            detection_method := "external_ip".toList
            is_localhost := false
            is_external_accessible := true
            warnings := []
            timestamp := now }
        | .value none => requestHostTiers now [] request_host
        | .exc msg =>
          requestHostTiers now
            ["External IP detection failed: ".toList ++ msg] request_host

/-! ### QR format validator (`QRValidationUtils.validate_itak_qr_format`) -/

/-- A single quote character, kept out of string literals. -/
def sq : Char := Char.ofNat 39

def isHexDig (c : Char) : Bool :=
  c.isDigit || ('a' ≤ c && c ≤ 'f') || ('A' ≤ c && c ≤ 'F')

def hexVal (c : Char) : Nat :=
  if c.isDigit then c.toNat - '0'.toNat
  else if 'a' ≤ c && c ≤ 'f' then c.toNat - 'a'.toNat + 10
  else c.toNat - 'A'.toNat + 10

/-- `urllib.parse.unquote_plus` on the ASCII byte sequences modelled
here: `+` becomes a space, a valid `%XX` pair becomes the character with
that code, an invalid percent sequence is kept literally. -/
def unquote_plus : List Char → List Char
  | [] => []
  | '+' :: rest => ' ' :: unquote_plus rest
  | '%' :: a :: b :: rest =>
    if isHexDig a && isHexDig b then
      Char.ofNat (16 * hexVal a + hexVal b) :: unquote_plus rest
    else '%' :: unquote_plus (a :: b :: rest)
  | c :: rest => c :: unquote_plus rest

/-- `urllib.parse.parse_qsl(query)` with the default
`keep_blank_values=False`: split on `&`, skip empty fields, skip fields
without `=`, skip fields whose value is empty, and percent-decode both
name and value. -/
def parse_qsl (query : List Char) : List (List Char × List Char) :=
  (splitOnChar '&' query).filterMap (fun field =>
    if field = [] then none
    else
      match splitFirst '=' field with
      | none => none
      | some (n, v) =>
        if v = [] then none else some (unquote_plus n, unquote_plus v))

/-- Append a key/value into the insertion-ordered multi-dict that
`parse_qs` builds. -/
def insertParam (k v : List Char) :
    List (List Char × List (List Char)) → List (List Char × List (List Char))
  | [] => [(k, [v])]
  | (k', vs) :: rest =>
    if k' = k then (k', vs ++ [v]) :: rest
    else (k', vs) :: insertParam k v rest

/-- `urllib.parse.parse_qs(query)` (default options). -/
def parse_qs (query : List Char) : List (List Char × List (List Char)) :=
  (parse_qsl query).foldl (fun d p => insertParam p.1 p.2 d) []

/-- `params[k]` lookup in the decoded query dict. -/
def lookupParam (params : List (List Char × List (List Char)))
    (k : List Char) : Option (List (List Char)) :=
  match params with
  | [] => none
  | (k', vs) :: rest => if k' = k then some vs else lookupParam rest k

/-- C `strtoul(str, &endp, 0)` under the caller's guarantee that the
first character is a decimal digit: consumes a hex (`0x`), octal
(leading `0`) or decimal literal and returns (value, unconsumed rest). -/
def strtoulBase0 : List Char → Nat × List Char
  | '0' :: c :: rest =>
    if c = 'x' || c = 'X' then
      match rest with
      | d :: _ =>
        if isHexDig d then hexLoop rest 0
        else (0, c :: rest)
      | [] => (0, c :: rest)
    else octLoop (c :: rest) 0
  | '0' :: [] => (0, [])
  | l => decLoop l 0
where
  hexLoop : List Char → Nat → Nat × List Char
    | c :: rest, acc =>
      if isHexDig c then hexLoop rest (acc * 16 + hexVal c) else (acc, c :: rest)
    | [], acc => (acc, [])
  octLoop : List Char → Nat → Nat × List Char
    | c :: rest, acc =>
      if '0' ≤ c && c ≤ '7' then octLoop rest (acc * 8 + (c.toNat - '0'.toNat))
      else (acc, c :: rest)
    | [], acc => (acc, [])
  decLoop : List Char → Nat → Nat × List Char
    | c :: rest, acc =>
      if c.isDigit then decLoop rest (acc * 10 + (c.toNat - '0'.toNat))
      else (acc, c :: rest)
    | [], acc => (acc, [])

/-- One step of glibc `inet_aton`'s number-and-dots loop;
`bytesStored` counts the bytes already committed at earlier dots, `fuel`
dominates the input length (each step consumes at least one character). -/
def inet_aton_go (fuel : Nat) (s : List Char) (bytesStored : Nat) : Bool :=
  match fuel with
  | 0 => false
  | fuel + 1 =>
    match s with
    | [] => false
    | c :: _ =>
      if ¬ c.isDigit then false
      else
        let (val, rest) := strtoulBase0 s
        if 4294967295 < val then false
        else
          match rest with
          | '.' :: rest2 =>
            if 3 ≤ bytesStored || 255 < val then false
            else inet_aton_go fuel rest2 (bytesStored + 1)
          | [] => val < 2 ^ (8 * (4 - bytesStored))
          | r :: _ => isPyWs r && val < 2 ^ (8 * (4 - bytesStored))

/-- `socket.inet_aton(hostname)` succeeding (glibc numbers-and-dots
notation: up to four `.`-separated C integer literals, each non-final
one a byte, the final one bounded by the remaining bytes, with at most
trailing whitespace). -/
def inet_aton_ok (s : List Char) : Bool :=
  inet_aton_go (s.length + 1) s 0

/-- One label of the regex
`^[a-zA-Z0-9]([a-zA-Z0-9\-]{0,61}[a-zA-Z0-9])?(\.[a-zA-Z0-9]([a-zA-Z0-9\-]{0,61}[a-zA-Z0-9])?)*$`:
length 1 to 63, starts and ends alphanumeric, hyphens allowed inside. -/
def rfc1123LabelOk (l : List Char) : Bool :=
  l ≠ [] && l.length ≤ 63 &&
  (l.headD '-').isAlphanum && (l.getLastD '-').isAlphanum &&
  l.all (fun c => c.isAlphanum || c = '-')

/-- The full hostname regex of `_is_valid_hostname_format` as a Boolean
(anchored with `$`, hence the optional trailing newline). -/
def matchRfc1123Hostname (l : List Char) : Bool :=
  let t := stripTrailingNl l
  t ≠ [] && (splitOnChar '.' t).all rfc1123LabelOk

/-- `QRValidationUtils._is_valid_hostname_format` (renamed without the
underscore): non-empty, and either an address `inet_aton` accepts or a
string of at most 253 characters matching the label regex. -/
def is_valid_hostname_format (hostname : List Char) : Bool :=
  if hostname = [] then false
  else if inet_aton_ok hostname then true
  else if 253 < hostname.length then false
  else matchRfc1123Hostname hostname

/-- The `details` dict accumulated by `validate_itak_qr_format`,
modelled as a structure of the keys the source can set. -/
structure QRDetails where
  scheme : Option (List Char) := none
  netloc : Option (List Char) := none
  path : Option (List Char) := none
  query : Option (List Char) := none
  parameters : Option (List (List Char × List (List Char))) := none
  host : Option (List Char) := none
  localhost_warning : Bool := false
  length : Option Nat := none
  length_warning : Option (List Char) := none

/-- `re.match` of `itak_url_pattern`
(`^tak://com\.atakmap\.app/enroll\?.*$` with `re.IGNORECASE`): the
case-insensitive 29-character prefix, and no interior newline after it
(`.` does not cross a newline; `$` tolerates one trailing newline). -/
def itakPatternMatch (qr : List Char) : Bool :=
  "tak://com.atakmap.app/enroll?".toList.isPrefixOf (pyLower qr) &&
  (stripTrailingNl (qr.drop 29)).all (fun c => c ≠ '\n')

/-- Decimal digits of a natural number (for the interpolated lengths in
the source's length messages). -/
def natToDec (n : Nat) : List Char :=
  let rec go (fuel n : Nat) (acc : List Char) : List Char :=
    match fuel with
    | 0 => acc
    | fuel + 1 =>
      let acc := Char.ofNat (n % 10 + '0'.toNat) :: acc
      if n < 10 then acc else go fuel (n / 10) acc
  go (n + 1) n []

/-- The required-parameter loop of `validate_itak_qr_format`: one error
per missing key, one per present-but-empty key, in the fixed order
`host`, `username`, `token`, never short-circuiting. -/
def requiredParamErrors (params : List (List Char × List (List Char))) :
    List (List Char) :=
  ["host".toList, "username".toList, "token".toList].foldl
    (fun errs p =>
      match lookupParam params p with
      | none => errs ++ ["Missing required parameter: ".toList ++ p]
      | some [] => errs ++ ["Empty parameter: ".toList ++ p]
      | some (v :: _) =>
        if v = [] then errs ++ ["Empty parameter: ".toList ++ p] else errs)
    []

/-- The final length check of `validate_itak_qr_format` and the closing
`is_valid = len(errors) == 0`. -/
def finishQrLength (qr : List Char) (errs : List (List Char))
    (d : QRDetails) : Bool × List (List Char) × QRDetails :=
  let n := qr.length
  let d := { d with length := some n }
  let (errs, d) :=
    if 2048 < n then
      (errs ++ ["QR string too long: ".toList ++ natToDec n ++
        " characters (recommended max: 2048)".toList], d)
    else if 1024 < n then
      let lw := "QR string is long: ".toList ++ natToDec n ++ " characters".toList
      (errs, { d with length_warning := some lw })
    else (errs, d)
  (errs.isEmpty, errs, d)

/-- `QRValidationUtils.validate_itak_qr_format`.  URL components follow
`urlparse` on strings that passed the `itak_url_pattern` guard, under
which the general parse reduces to fixed positions: the scheme is the
lowercased text before the first `:`, the authority is the 15
characters after `tak://`, the path the 7 after that, and the query
everything after the `?` up to a `#`. -/
def validate_itak_qr_format (qr : List Char) :
    Bool × List (List Char) × QRDetails :=
  if qr = [] then (false, ["QR string is empty".toList], {})
  else if ¬ itakPatternMatch qr then
    (false,
     ["Invalid iTAK URL scheme. Must start with ".toList ++ [sq] ++
      "tak://com.atakmap.app/enroll?".toList ++ [sq]], {})
  else
    let scheme := pyLower (qr.takeWhile (fun c => c ≠ ':'))
    let netloc := (qr.drop 6).take 15
    let path := (qr.drop 21).take 7
    let query := (qr.drop 29).takeWhile (fun c => c ≠ '#')
    let d : QRDetails :=
      { scheme := some scheme, netloc := some netloc,
        path := some path, query := some query }
    let errs : List (List Char) :=
      (if scheme ≠ "tak".toList then
        ["Invalid scheme: ".toList ++ scheme ++ ". Must be ".toList ++
         [sq] ++ "tak".toList ++ [sq]]
       else []) ++
      (if pyLower netloc ≠ "com.atakmap.app".toList then
        ["Invalid netloc: ".toList ++ netloc ++ ". Must be ".toList ++
         [sq] ++ "com.atakmap.app".toList ++ [sq]]
       else []) ++
      (if path ≠ "/enroll".toList then
        ["Invalid path: ".toList ++ path ++ ". Must be ".toList ++
         [sq] ++ "/enroll".toList ++ [sq]]
       else [])
    if query = [] then (false, errs ++ ["Missing query parameters".toList], d)
    else
      let params := parse_qs query
      let d := { d with parameters := some params }
      let errs := errs ++ requiredParamErrors params
      match lookupParam params "host".toList with
      | some (host :: _) =>
        let lw :=
          pyLower host = "localhost".toList ||
          pyLower host = "127.0.0.1".toList ||
          pyLower host = "::1".toList
        let d := { d with host := some host, localhost_warning := lw }
        let errs := errs ++
          (if ¬ is_valid_hostname_format host then
            ["Invalid hostname format: ".toList ++ host]
           else [])
        finishQrLength qr errs d
      | _ => finishQrLength qr errs d

/-! ### Claim-side characterizations -/

/-- A strict dotted-quad IPv4 address as the spec describes it: exactly
four dot-separated non-empty decimal fields, each with value at most
255, and no other characters. -/
def is_strict_ipv4_quad (s : List Char) : Bool :=
  let parts := splitOnChar '.' s
  parts.length = 4 &&
  parts.all (fun p => p ≠ [] && p.all Char.isDigit && digitsToNat p ≤ 255)

/-- A trailing field of the claimed localhost form `127.x.x.x` read as
"any valid octet": a non-empty digit run whose value is at most 255. -/
def validOctet (p : List Char) : Bool :=
  p ≠ [] && p.all Char.isDigit && digitsToNat p ≤ 255

/-- A trailing field as the code actually accepts it: any non-empty
digit run, with no range check. -/
def digitRun (p : List Char) : Bool :=
  p ≠ [] && p.all Char.isDigit

/-- The localhost classifier exactly as claim C3 words it: empty, or —
lowercased and trimmed — the exact string `localhost`, a `127.a.b.c`
form whose trailing fields are valid octets, `::1`, or `0.0.0.0`. -/
def claimedLocalhost (s : List Char) : Bool :=
  s = [] ||
  (let t := pyStrip (pyLower s)
   t = "localhost".toList ||
   (match splitOnChar '.' t with
    | [a, b, c, d] => a = "127".toList && validOctet b && validOctet c && validOctet d
    | _ => false) ||
   t = "::1".toList || t = "0.0.0.0".toList)

/-- The localhost classifier with the amendment C3 needs: the trailing
fields of the `127.` form are arbitrary non-empty digit runs, not
range-checked octets. -/
def amendedLocalhost (s : List Char) : Bool :=
  s = [] ||
  (let t := pyStrip (pyLower s)
   t = "localhost".toList ||
   (match splitOnChar '.' t with
    | [a, b, c, d] => a = "127".toList && digitRun b && digitRun c && digitRun d
    | _ => false) ||
   t = "::1".toList || t = "0.0.0.0".toList)

/-- A domain label as claim C4 words the rule: non-empty, at most 63
characters, alphanumeric-or-hyphen, not starting or ending with a
hyphen. -/
def labelOkSpec (l : List Char) : Bool :=
  l ≠ [] && l.length ≤ 63 &&
  l.all (fun c => c.isAlphanum || c = '-') &&
  l.headD ' ' ≠ '-' && l.getLastD ' ' ≠ '-'

/-- A probe service attempt that fails: it raises, or its candidate does
not validate as an IPv4 address. -/
def outcomeFails : ServiceOutcome → Bool
  | .raises => true
  | .respond raw => ¬ is_valid_ip (pyStrip raw)

/-- Well-formedness of the external-IP cache slot: any stored IP is a
strict dotted-quad (the invariant the success path maintains). -/
def cacheWF (c : Option CacheEntry) : Prop :=
  ∀ e, c = some e → is_strict_ipv4_quad e.ip = true

end OTS

section Examples

open OTS

example : is_localhost_address "localhost".toList = true := by decide
example : is_localhost_address "LOCALHOST".toList = true := by decide
example : is_localhost_address "  localhost  ".toList = true := by decide
example : is_localhost_address "localhost.example.com".toList = false := by decide
example : is_localhost_address "mylocalhost".toList = false := by decide
example : is_localhost_address "127.0.0.1".toList = true := by decide
example : is_localhost_address "127.256.0.1".toList = true := by decide
example : is_localhost_address "0.0.0.0".toList = true := by decide
example : is_localhost_address "::1".toList = true := by decide
example : validate_hostname "256.1.1.1".toList =
    (false, "Invalid IP address format".toList) := by decide
example : validate_hostname "192.168.001.1".toList = (true, []) := by decide
example : validate_hostname "example.com".toList = (true, []) := by decide
example : validate_hostname " a".toList = (true, []) := by decide
example : validate_hostname "a..b".toList =
    (false, "Empty label in hostname".toList) := by decide
example : validate_hostname "-a.b".toList =
    (false, "Hostname label cannot start or end with hyphen".toList) := by decide
example : validate_hostname [] = (false, "Hostname is empty".toList) := by decide
example : validate_hostname (List.replicate 253 'a') = (true, []) := by decide
example : validate_hostname (List.replicate 254 'a') =
    (false, "Hostname too long (max 253 characters)".toList) := by decide
example : is_valid_ip "1.2.3.4".toList = true := by decide
example : is_valid_ip "1.2.3.256".toList = false := by decide
example : is_valid_ip "abc".toList = false := by decide

example :
    get_external_hostname 0 true none none (.value none)
      (some "opentakserver-core:8080".toList) none =
    ⟨"opentakserver-core".toList, "request_host".toList, false, true, [], 0⟩ := by
  decide

example :
    (get_external_hostname 0 true none none (.value none)
      (some "localhost:8080".toList) none).hostname = "localhost".toList := by
  decide

example :
    (get_external_hostname 0 true none none (.value none)
      (some "localhost:8080".toList) none).warnings.length = 3 := by
  decide

example :
    get_external_hostname 0 false none (some "srv.example.com".toList)
      (.value (some "1.2.3.4".toList)) none none
    = ⟨"srv.example.com".toList, "env_var".toList, false, true, [], 0⟩ := by
  decide

example :
    (get_external_hostname 0 false (some "eh.example.com".toList)
      (some "sh.example.com".toList) (.exc []) none (some "ov".toList)).hostname
    = "ov".toList := by decide

example :
    get_external_ip 300 100 (some ⟨"1.2.3.4".toList, 0, []⟩)
      (fun _ => .raises) = (some "1.2.3.4".toList, some ⟨"1.2.3.4".toList, 0, []⟩, 0) := by
  decide

example :
    get_external_ip 300 400 (some ⟨"1.2.3.4".toList, 0, []⟩)
      (fun _ => .raises) = (none, some ⟨"1.2.3.4".toList, 0, []⟩, 4) := by
  decide

example :
    get_external_ip 300 0 none
      (fun i => if i = 0 then .raises else .respond " 5.6.7.8\n".toList)
    = (some "5.6.7.8".toList,
       some ⟨"5.6.7.8".toList, 0, "https://httpbin.org/ip".toList⟩, 2) := by
  decide

example : inet_aton_ok "1.2.3.4".toList = true := by decide
example : inet_aton_ok "256.1.1.1".toList = false := by decide
example : inet_aton_ok "127.1".toList = true := by decide
example : inet_aton_ok "0x7f.1".toList = true := by decide
example : inet_aton_ok "2130706433".toList = true := by decide
example : inet_aton_ok "1.2.3.4.5".toList = false := by decide
example : inet_aton_ok "example.com".toList = false := by decide
example : inet_aton_ok "08".toList = false := by decide
example : inet_aton_ok "010".toList = true := by decide
example : is_valid_hostname_format "example.com".toList = true := by decide
example : is_valid_hostname_format "256.1.1.1".toList = true := by decide
example : is_valid_hostname_format "-bad-".toList = false := by decide
example : is_valid_hostname_format [] = false := by decide

example : parse_qs "host=example.com&username=&token=pass".toList =
    [("host".toList, ["example.com".toList]),
     ("token".toList, ["pass".toList])] := by decide

example :
    (validate_itak_qr_format
      "tak://com.atakmap.app/enroll?host=example.com&username=user&token=pass".toList).1
    = true := by decide

example :
    (validate_itak_qr_format
      "tak://com.atakmap.app/enroll?host=example.com&username=user&token=pass".toList).2.1
    = [] := by decide

example :
    (validate_itak_qr_format
      "http://com.atakmap.app/enroll?host=example.com&username=user&token=pass".toList).2.1
    = ["Invalid iTAK URL scheme. Must start with ".toList ++ [sq] ++
       "tak://com.atakmap.app/enroll?".toList ++ [sq]] := by decide

example :
    (validate_itak_qr_format
      "tak://com.atakmap.app/enroll?host=example.com&username=&token=pass".toList).2.1
    = ["Missing required parameter: username".toList] := by decide

example :
    (validate_itak_qr_format "tak://com.atakmap.app/enroll?x=1".toList).2.1
    = ["Missing required parameter: host".toList,
       "Missing required parameter: username".toList,
       "Missing required parameter: token".toList] := by decide

example :
    (validate_itak_qr_format
      "tak://com.atakmap.app/enroll?host=256.1.1.1&username=user&token=pass".toList).2.1
    = [] := by decide

example :
    (validate_itak_qr_format
      "tak://com.atakmap.app/enroll?host=-bad-&username=user&token=pass".toList).2.1
    = ["Invalid hostname format: -bad-".toList] := by decide

end Examples

namespace OTS

/-! ### Supporting lemmas -/

theorem dropWhile_ws_eq_self {l : List Char}
    (h : ∀ c ∈ l, isPyWs c = false) : l.dropWhile isPyWs = l := by
  cases l with
  | nil => rfl
  | cons a t => simp [List.dropWhile, h a (by simp)]

theorem pyStrip_eq_self {l : List Char}
    (h : ∀ c ∈ l, isPyWs c = false) : pyStrip l = l := by
  unfold pyStrip
  rw [dropWhile_ws_eq_self h,
    dropWhile_ws_eq_self (fun c hc => h c (List.mem_reverse.mp hc)),
    List.reverse_reverse]

theorem head?_dropWhile_ws {c : Char} :
    ∀ {l : List Char}, (l.dropWhile isPyWs).head? = some c → isPyWs c = false := by
  intro l
  induction l with
  | nil => simp [List.dropWhile]
  | cons a t ih =>
    by_cases ha : isPyWs a = true
    · simpa [List.dropWhile, ha] using ih
    · simp only [List.dropWhile, ha]
      intro hc
      simp only [Bool.false_eq_true, if_false, List.head?_cons, Option.some.injEq] at hc
      subst hc
      simpa using ha

theorem stripTrailingNl_pyStrip (l : List Char) :
    stripTrailingNl (pyStrip l) = pyStrip l := by
  unfold pyStrip stripTrailingNl
  rw [List.getLast?_reverse]
  cases hm : ((l.dropWhile isPyWs).reverse.dropWhile isPyWs).head? with
  | none => rfl
  | some c =>
    have hc : isPyWs c = false := head?_dropWhile_ws hm
    have hne : c ≠ '\n' := by
      intro h
      subst h
      simp [isPyWs] at hc
    simp [hne]

theorem isPyWs_of_digit {c : Char} (h : c.isDigit = true) : isPyWs c = false := by
  by_contra hw
  have hw' : isPyWs c = true := by
    cases hx : isPyWs c
    · exact absurd hx hw
    · rfl
  simp only [isPyWs, Bool.or_eq_true, decide_eq_true_eq] at hw'
  rcases hw' with ((((h1 | h1) | h1) | h1) | h1) | h1 <;> subst h1 <;>
    simp [Char.isDigit] at h

theorem pyIntOpt_of_digits {p : List Char}
    (hne : p ≠ []) (hd : p.all Char.isDigit = true) :
    pyIntOpt p = some (digitsToNat p) := by
  have hs : pyStrip p = p := by
    refine pyStrip_eq_self (fun c hc => ?_)
    exact isPyWs_of_digit (by exact (List.all_eq_true.mp hd c hc))
  unfold pyIntOpt
  rw [hs]
  simp [hne, hd]

theorem quadPartsInRange_iff {t : List Char} (hshape : dottedQuadShape t = true) :
    quadPartsInRange t = true ↔
      (splitOnChar '.' t).all (fun p => digitsToNat p ≤ 255) = true := by
  unfold dottedQuadShape at hshape
  simp only [Bool.and_eq_true, List.all_eq_true] at hshape
  obtain ⟨-, hparts⟩ := hshape
  unfold quadPartsInRange
  rw [List.all_eq_true, List.all_eq_true]
  constructor
  · intro h p hp
    have hpd := hparts p hp
    simp only [Bool.and_eq_true] at hpd
    have := h p hp
    rw [pyIntOpt_of_digits (by simpa using hpd.1) (List.all_eq_true.mpr hpd.2)] at this
    simpa using this
  · intro h p hp
    have hpd := hparts p hp
    simp only [Bool.and_eq_true] at hpd
    rw [pyIntOpt_of_digits (by simpa using hpd.1) (List.all_eq_true.mpr hpd.2)]
    simpa using h p hp

theorem strict_quad_of_valid_stripped {raw : List Char}
    (h : is_valid_ip (pyStrip raw) = true) :
    is_strict_ipv4_quad (pyStrip raw) = true := by
  unfold is_valid_ip at h
  by_cases hz : pyStrip raw = []
  · simp [hz] at h
  · rw [if_neg hz] at h
    by_cases hq : matchDottedQuad (pyStrip raw) = true
    · rw [if_pos hq] at h
      have hshape : dottedQuadShape (pyStrip raw) = true := by
        unfold matchDottedQuad at hq
        rwa [stripTrailingNl_pyStrip] at hq
      have hrange := (quadPartsInRange_iff hshape).mp h
      unfold is_strict_ipv4_quad
      unfold dottedQuadShape at hshape
      simp only [Bool.and_eq_true, List.all_eq_true] at hshape ⊢
      refine ⟨hshape.1, fun p hp => ?_⟩
      have hpd := hshape.2 p hp
      simp only [Bool.and_eq_true] at hpd
      exact ⟨⟨hpd.1, hpd.2⟩, List.all_eq_true.mp hrange p hp⟩
    · simp [hq] at h

/-- The probe loop only produces validated strict dotted-quad IPs, and
on success the returned IP is exactly what it just stored in the cache. -/
theorem probe_loop_success_inv (now : Int) :
    ∀ (pairs : List (List Char × ServiceOutcome)) (cache : Option CacheEntry)
      (count : Nat) (ip : List Char) (c' : Option CacheEntry) (n : Nat),
      probe_loop now pairs cache count = (some ip, c', n) →
      is_strict_ipv4_quad ip = true ∧ ∃ e, c' = some e ∧ e.ip = ip := by
  intro pairs
  induction pairs with
  | nil =>
    intro cache count ip c' n h
    simp [probe_loop] at h
  | cons p rest ih =>
    intro cache count ip c' n h
    obtain ⟨url, outcome⟩ := p
    cases outcome with
    | raises =>
      exact ih cache (count + 1) ip c' n (by simpa [probe_loop] using h)
    | respond raw =>
      by_cases hv : is_valid_ip (pyStrip raw) = true
      · simp only [probe_loop, hv, if_true] at h
        rw [Prod.ext_iff, Prod.ext_iff] at h
        obtain ⟨h1, h2, h3⟩ := h
        simp only [Option.some.injEq] at h1
        subst h1
        exact ⟨strict_quad_of_valid_stripped hv,
          ⟨pyStrip raw, now, url⟩, h2.symm, rfl⟩
      · refine ih cache (count + 1) ip c' n ?_
        simpa [probe_loop, hv] using h

/-- The request counter of the probe loop never decreases. -/
theorem probe_loop_count_le (now : Int) :
    ∀ (pairs : List (List Char × ServiceOutcome)) (cache : Option CacheEntry)
      (count : Nat), count ≤ (probe_loop now pairs cache count).2.2 := by
  intro pairs
  induction pairs with
  | nil => intro cache count; simp [probe_loop]
  | cons p rest ih =>
    intro cache count
    obtain ⟨url, outcome⟩ := p
    cases outcome with
    | raises =>
      calc count ≤ count + 1 := Nat.le_succ count
        _ ≤ _ := ih cache (count + 1)
    | respond raw =>
      by_cases hv : is_valid_ip (pyStrip raw) = true
      · simp [probe_loop, hv]
      · calc count ≤ count + 1 := Nat.le_succ count
          _ ≤ (probe_loop now rest cache (count + 1)).2.2 := ih cache (count + 1)
          _ = _ := by simp [probe_loop, hv]

/-- Walking a non-empty service list issues at least one request. -/
theorem probe_loop_count_pos (now : Int)
    (p : List Char × ServiceOutcome) (rest : List (List Char × ServiceOutcome))
    (cache : Option CacheEntry) :
    1 ≤ (probe_loop now (p :: rest) cache 0).2.2 := by
  obtain ⟨url, outcome⟩ := p
  cases outcome with
  | raises =>
    calc 1 ≤ (probe_loop now rest cache 1).2.2 := probe_loop_count_le now rest cache 1
      _ = _ := by simp [probe_loop]
  | respond raw =>
    by_cases hv : is_valid_ip (pyStrip raw) = true
    · simp [probe_loop, hv]
    · calc 1 ≤ (probe_loop now rest cache 1).2.2 := probe_loop_count_le now rest cache 1
        _ = _ := by simp [probe_loop, hv]

/-- The explicit per-service pair list behind `get_external_ip`. -/
theorem servicePairs_eq (net : Nat → ServiceOutcome) :
    servicePairs net =
      [("https://api.ipify.org".toList, net 0),
       ("https://httpbin.org/ip".toList, net 1),
       ("https://icanhazip.com".toList, net 2),
       ("https://ifconfig.me/ip".toList, net 3)] := rfl

/-- After any run of failing services, the first service whose response
validates wins: its stripped candidate is returned and cached, and one
request was issued per service tried. -/
theorem probe_loop_first_success (now : Int) (url raw : List Char)
    (post : List (List Char × ServiceOutcome))
    (hv : is_valid_ip (pyStrip raw) = true) :
    ∀ (pre : List (List Char × ServiceOutcome)) (cache : Option CacheEntry)
      (count : Nat), (∀ p ∈ pre, outcomeFails p.2 = true) →
      probe_loop now (pre ++ (url, .respond raw) :: post) cache count =
        (some (pyStrip raw), some ⟨pyStrip raw, now, url⟩,
         count + pre.length + 1) := by
  intro pre
  induction pre with
  | nil => intro cache count _; simp [probe_loop, hv]
  | cons p pre ih =>
    intro cache count hf
    obtain ⟨u, o⟩ := p
    have hfo : outcomeFails o = true := hf (u, o) (by simp)
    cases o with
    | raises =>
      rw [List.cons_append]
      have harith : count + 1 + pre.length + 1 =
          count + (pre.length + 1) + 1 := by omega
      rw [show probe_loop now ((u, ServiceOutcome.raises) ::
            (pre ++ (url, ServiceOutcome.respond raw) :: post)) cache count =
          probe_loop now (pre ++ (url, ServiceOutcome.respond raw) :: post)
            cache (count + 1) from rfl,
        ih cache (count + 1) (fun q hq => hf q (by simp [hq])),
        List.length_cons, harith]
    | respond raw2 =>
      have hv2 : is_valid_ip (pyStrip raw2) = false := by
        simpa [outcomeFails] using hfo
      rw [List.cons_append]
      have harith : count + 1 + pre.length + 1 =
          count + (pre.length + 1) + 1 := by omega
      show probe_loop now ((u, .respond raw2) :: _) cache count = _
      simp only [probe_loop, hv2, Bool.false_eq_true, if_false]
      rw [ih cache (count + 1) (fun q hq => hf q (by simp [hq])),
        List.length_cons, harith]

/-- When every service fails, the loop returns `none`, leaves the cache
slot untouched, and has issued one request per service. -/
theorem probe_loop_all_fail (now : Int) :
    ∀ (pairs : List (List Char × ServiceOutcome)) (cache : Option CacheEntry)
      (count : Nat), (∀ p ∈ pairs, outcomeFails p.2 = true) →
      probe_loop now pairs cache count = (none, cache, count + pairs.length) := by
  intro pairs
  induction pairs with
  | nil => intro cache count _; simp [probe_loop]
  | cons p rest ih =>
    intro cache count hf
    obtain ⟨u, o⟩ := p
    have hfo : outcomeFails o = true := hf (u, o) (by simp)
    cases o with
    | raises =>
      have harith : count + 1 + rest.length =
          count + (rest.length + 1) := by omega
      rw [show probe_loop now ((u, ServiceOutcome.raises) :: rest) cache count =
          probe_loop now rest cache (count + 1) from rfl,
        ih cache (count + 1) (fun q hq => hf q (by simp [hq])),
        List.length_cons, harith]
    | respond raw =>
      have hv : is_valid_ip (pyStrip raw) = false := by
        simpa [outcomeFails] using hfo
      have harith : count + 1 + rest.length =
          count + (rest.length + 1) := by omega
      show probe_loop now ((u, .respond raw) :: rest) cache count = _
      simp only [probe_loop, hv, Bool.false_eq_true, if_false]
      rw [ih cache (count + 1) (fun q hq => hf q (by simp [hq])),
        List.length_cons, harith]

/-- Tiers 4–5 only ever produce the `request_host` or `fallback` method. -/
theorem requestHostTiers_method (now : Int) (ws : List (List Char))
    (rh : Option (List Char)) :
    (requestHostTiers now ws rh).detection_method = "request_host".toList ∨
    (requestHostTiers now ws rh).detection_method = "fallback".toList := by
  unfold requestHostTiers
  cases hpt : pyTruthy rh with
  | none => simp
  | some r =>
    by_cases hl : is_localhost_address (stripPort r) = true
    · simp [hl]
    · by_cases hvl : (validate_hostname (stripPort r)).1 = true
      · simp [hl, hvl]
      · simp [hl, hvl]

/-- Tiers 4–5 keep every warning they were handed. -/
theorem requestHostTiers_warnings_carry (now : Int) (ws : List (List Char))
    (rh : Option (List Char)) (w : List Char) (hw : w ∈ ws) :
    w ∈ (requestHostTiers now ws rh).warnings := by
  unfold requestHostTiers
  cases hpt : pyTruthy rh with
  | none => simp [hw]
  | some r =>
    by_cases hl : is_localhost_address (stripPort r) = true
    · simp [hl, hw]
    · by_cases hvl : (validate_hostname (stripPort r)).1 = true
      · simp [hl, hvl, hw]
      · simp [hl, hvl, hw]

/-! ### Claim theorems -/

/-- C5: `getExternalIp` consults the cache first — a present entry with
`now - cachedAt < ttl` is returned with no outbound request, so a
success followed by a second call within the TTL issues exactly one
request across the two calls; the first validating response overwrites
the single cache slot with (ip, now, service-url) and returns without
trying the remaining services; after `clearCache()` or TTL expiry the
next call performs network I/O again (at least one request). -/
theorem C5_cache_behaviour :
    (∀ (ttl now : Int) (e : CacheEntry) (net : Nat → ServiceOutcome),
       now - e.timestamp < ttl →
       get_external_ip ttl now (some e) net = (some e.ip, some e, 0)) ∧
    (∀ (ttl t t' : Int) (raw : List Char) (net net' : Nat → ServiceOutcome),
       net 0 = .respond raw →
       is_valid_ip (pyStrip raw) = true →
       get_external_ip ttl t none net =
         (some (pyStrip raw),
          some ⟨pyStrip raw, t, "https://api.ipify.org".toList⟩, 1) ∧
       (t' - t < ttl →
        get_external_ip ttl t'
            (some ⟨pyStrip raw, t, "https://api.ipify.org".toList⟩) net' =
          (some (pyStrip raw),
           some ⟨pyStrip raw, t, "https://api.ipify.org".toList⟩, 0))) ∧
    (∀ (ttl now : Int) (net : Nat → ServiceOutcome),
       1 ≤ (get_external_ip ttl now clear_cache net).2.2) ∧
    (∀ (ttl now : Int) (e : CacheEntry) (net : Nat → ServiceOutcome),
       ¬ now - e.timestamp < ttl →
       1 ≤ (get_external_ip ttl now (some e) net).2.2) := by
  refine ⟨?_, ?_, ?_, ?_⟩
  · intro ttl now e net h
    simp [get_external_ip, h]
  · intro ttl t t' raw net net' hn0 hv
    constructor
    · unfold get_external_ip
      rw [servicePairs_eq, hn0]
      have := probe_loop_first_success t "https://api.ipify.org".toList raw
        [("https://httpbin.org/ip".toList, net 1),
         ("https://icanhazip.com".toList, net 2),
         ("https://ifconfig.me/ip".toList, net 3)] hv [] none 0 (by simp)
      simpa using this
    · intro hfresh
      simp [get_external_ip, hfresh]
  · intro ttl now net
    show 1 ≤ (get_external_ip ttl now none net).2.2
    unfold get_external_ip
    rw [servicePairs_eq]
    exact probe_loop_count_pos now _ _ none
  · intro ttl now e net h
    have hred : get_external_ip ttl now (some e) net =
        probe_loop now (servicePairs net) (some e) 0 := by
      unfold get_external_ip
      simp [h]
    rw [hred, servicePairs_eq]
    exact probe_loop_count_pos now _ _ (some e)

/-- Witness for C5 at concrete inputs: a fresh cache entry is returned
with zero requests, and a first-service success is returned and cached
with one request. -/
theorem C5_cache_behaviour_witness :
    get_external_ip 300 100 (some ⟨"1.2.3.4".toList, 0, []⟩)
        (fun _ => .raises) =
      (some "1.2.3.4".toList, some ⟨"1.2.3.4".toList, 0, []⟩, 0) ∧
    get_external_ip 300 7 none (fun _ => .respond " 9.8.7.6 ".toList) =
      (some "9.8.7.6".toList,
       some ⟨"9.8.7.6".toList, 7, "https://api.ipify.org".toList⟩, 1) := by
  constructor
  · exact C5_cache_behaviour.1 300 100 ⟨"1.2.3.4".toList, 0, []⟩ _ (by decide)
  · have h := (C5_cache_behaviour.2.1 300 7 8 " 9.8.7.6 ".toList
      (fun _ => .respond " 9.8.7.6 ".toList) (fun _ => .raises) rfl
      (by decide)).1
    have hs : pyStrip " 9.8.7.6 ".toList = "9.8.7.6".toList := by decide
    rw [hs] at h
    exact h

/-- C6: inside the probe loop every per-service failure (an exception or
an invalid candidate) advances to the next configured service without
propagating; if the first service raises and the second returns a valid
IP, that IP is returned and recorded in the cache; if every service
fails, `getExternalIp` returns `None` and the cache slot is untouched. -/
theorem C6_probe_error_handling :
    (∀ (ttl now : Int) (raw : List Char) (net : Nat → ServiceOutcome),
       net 0 = .raises →
       net 1 = .respond raw →
       is_valid_ip (pyStrip raw) = true →
       get_external_ip ttl now none net =
         (some (pyStrip raw),
          some ⟨pyStrip raw, now, "https://httpbin.org/ip".toList⟩, 2)) ∧
    (∀ (ttl now : Int) (net : Nat → ServiceOutcome),
       (∀ i, i < 4 → outcomeFails (net i) = true) →
       get_external_ip ttl now none net = (none, none, 4)) := by
  constructor
  · intro ttl now raw net hn0 hn1 hv
    unfold get_external_ip
    rw [servicePairs_eq, hn0, hn1]
    have := probe_loop_first_success now "https://httpbin.org/ip".toList raw
      [("https://icanhazip.com".toList, net 2),
       ("https://ifconfig.me/ip".toList, net 3)] hv
      [("https://api.ipify.org".toList, .raises)] none 0
      (by intro p hp; simp at hp; subst hp; rfl)
    simpa using this
  · intro ttl now net hf
    unfold get_external_ip
    rw [servicePairs_eq]
    have := probe_loop_all_fail now
      [("https://api.ipify.org".toList, net 0),
       ("https://httpbin.org/ip".toList, net 1),
       ("https://icanhazip.com".toList, net 2),
       ("https://ifconfig.me/ip".toList, net 3)] none 0 ?_
    · simpa using this
    · intro p hp
      simp only [List.mem_cons, List.not_mem_nil, or_false] at hp
      rcases hp with rfl | rfl | rfl | rfl
      · exact hf 0 (by omega)
      · exact hf 1 (by omega)
      · exact hf 2 (by omega)
      · exact hf 3 (by omega)

/-- Witness for C6 at concrete inputs: first service raises, second
succeeds with `10.0.0.1`; and a network where every service raises
yields `None` after four requests. -/
theorem C6_probe_error_handling_witness :
    get_external_ip 300 0 none
        (fun i => if i = 0 then .raises else .respond "10.0.0.1".toList) =
      (some "10.0.0.1".toList,
       some ⟨"10.0.0.1".toList, 0, "https://httpbin.org/ip".toList⟩, 2) ∧
    get_external_ip 300 0 none (fun _ => .raises) = (none, none, 4) := by
  constructor
  · have h := C6_probe_error_handling.1 300 0 "10.0.0.1".toList
      (fun i => if i = 0 then .raises else .respond "10.0.0.1".toList)
      rfl rfl (by decide)
    have hs : pyStrip "10.0.0.1".toList = "10.0.0.1".toList := by decide
    rw [hs] at h
    exact h
  · exact C6_probe_error_handling.2 300 0 (fun _ => .raises) (fun i _ => rfl)

/-- C10: every IP `getExternalIp` returns is a strict dotted-quad IPv4
string and coincides with the IP held in the cache slot at the moment of
return (assuming the slot was well-formed to begin with, as every write
to it keeps it); consequently, when that IP feeds tier 3, the resulting
`HostnameResult` carries it verbatim with `detectionMethod =
external_ip`, `isLocalhost = false`, `isExternallyAccessible = true`. -/
theorem C10_external_ip_invariant :
    (∀ (ttl now : Int) (cache : Option CacheEntry) (net : Nat → ServiceOutcome)
       (ip : List Char) (c' : Option CacheEntry) (n : Nat),
       cacheWF cache →
       get_external_ip ttl now cache net = (some ip, c', n) →
       is_strict_ipv4_quad ip = true ∧ ∃ e, c' = some e ∧ e.ip = ip) ∧
    (∀ (ttl now : Int) (cache : Option CacheEntry) (net : Nat → ServiceOutcome)
       (ip : List Char) (c' : Option CacheEntry) (n : Nat)
       (eh sh rh oh : Option (List Char)),
       cacheWF cache →
       get_external_ip ttl now cache net = (some ip, c', n) →
       pyTruthy oh = none →
       envHost eh sh = none →
       get_external_hostname now false eh sh (.value (some ip)) rh oh =
         ⟨ip, "external_ip".toList, false, true, [], now⟩ ∧
       is_strict_ipv4_quad ip = true) := by
  have main : ∀ (ttl now : Int) (cache : Option CacheEntry)
      (net : Nat → ServiceOutcome)
      (ip : List Char) (c' : Option CacheEntry) (n : Nat),
      cacheWF cache →
      get_external_ip ttl now cache net = (some ip, c', n) →
      is_strict_ipv4_quad ip = true ∧ ∃ e, c' = some e ∧ e.ip = ip := by
    intro ttl now cache net ip c' n hwf h
    unfold get_external_ip at h
    cases cache with
    | none => exact probe_loop_success_inv now _ _ _ _ _ _ h
    | some e =>
      by_cases hfresh : now - e.timestamp < ttl
      · simp only [hfresh, if_true] at h
        rw [Prod.ext_iff, Prod.ext_iff] at h
        obtain ⟨h1, h2, -⟩ := h
        simp only [Option.some.injEq] at h1
        subst h1
        exact ⟨hwf e rfl, e, h2.symm, rfl⟩
      · simp only [hfresh, if_false] at h
        exact probe_loop_success_inv now _ _ _ _ _ _ h
  refine ⟨main, ?_⟩
  intro ttl now cache net ip c' n eh sh rh oh hwf h hoh henv
  refine ⟨?_, (main ttl now cache net ip c' n hwf h).1⟩
  unfold get_external_hostname
  rw [hoh, henv]
  rfl

theorem mem_of_getLast?_eq : ∀ (l : List Char) (c : Char),
    l.getLast? = some c → c ∈ l
  | [], c, h => by simp at h
  | [a], c, h => by
    simp only [List.getLast?_singleton, Option.some.injEq] at h
    simp [h]
  | a :: b :: t, c, h => by
    have h' : (b :: t).getLast? = some c := by
      simpa [List.getLast?_cons_cons] using h
    exact List.mem_cons_of_mem a (mem_of_getLast?_eq (b :: t) c h')

theorem stripTrailingNl_eq_self {l : List Char}
    (h : ∀ c ∈ l, c ≠ '\n') : stripTrailingNl l = l := by
  unfold stripTrailingNl
  cases hl : l.getLast? with
  | none => rfl
  | some c =>
    have hc : c ∈ l := mem_of_getLast?_eq l c hl
    simp [h c hc]

theorem splitOnChar_ne_nil (sep : Char) : ∀ (t : List Char),
    splitOnChar sep t ≠ []
  | [] => by simp [splitOnChar]
  | c :: rest => by
    unfold splitOnChar
    by_cases hc : c = sep
    · simp [hc]
    · simp only [hc, if_false]
      cases hsp : splitOnChar sep rest with
      | nil => exact absurd hsp (splitOnChar_ne_nil sep rest)
      | cons p ps => simp

theorem mem_splitOnChar {sep : Char} : ∀ {t p : List Char},
    p ∈ splitOnChar sep t → ∀ {c : Char}, c ∈ p → c ∈ t ∧ c ≠ sep := by
  intro t
  induction t with
  | nil =>
    intro p hp c hc
    simp [splitOnChar] at hp
    subst hp
    simp at hc
  | cons a t ih =>
    intro p hp c hc
    unfold splitOnChar at hp
    by_cases ha : a = sep
    · simp only [ha, if_true] at hp
      rcases List.mem_cons.mp hp with rfl | hp'
      · simp at hc
      · obtain ⟨h1, h2⟩ := ih hp' hc
        exact ⟨List.mem_cons_of_mem a h1, h2⟩
    · simp only [ha, if_false] at hp
      cases hsp : splitOnChar sep t with
      | nil => exact absurd hsp (splitOnChar_ne_nil sep t)
      | cons q qs =>
        rw [hsp] at hp
        rcases List.mem_cons.mp hp with rfl | hp'
        · rcases List.mem_cons.mp hc with rfl | hcq
          · exact ⟨List.mem_cons_self _ _, ha⟩
          · obtain ⟨h1, h2⟩ := ih (hsp ▸ List.mem_cons_self q qs) hcq
            exact ⟨List.mem_cons_of_mem a h1, h2⟩
        · obtain ⟨h1, h2⟩ := ih (hsp ▸ List.mem_cons_of_mem q hp') hc
          exact ⟨List.mem_cons_of_mem a h1, h2⟩

theorem checkLabel_none_iff {lb : List Char}
    (hnl : ∀ c ∈ lb, c ≠ '\n') :
    checkLabel lb = none ↔ labelOkSpec lb = true := by
  have hstrip : stripTrailingNl lb = lb := stripTrailingNl_eq_self hnl
  unfold checkLabel matchLabelCharClass labelOkSpec
  rw [hstrip]
  by_cases h1 : lb = []
  · simp [h1]
  · rw [if_neg h1]
    by_cases h2 : 63 < lb.length
    · have h2' : ¬ lb.length ≤ 63 := Nat.not_le.mpr h2
      simp [h2, h2']
    · rw [if_neg h2]
      have h2' : lb.length ≤ 63 := Nat.not_lt.mp h2
      by_cases h3 : lb.all (fun c => c.isAlphanum || c = '-') = true
      · have hcls : ¬ ¬ (decide (lb ≠ []) && lb.all fun c =>
            c.isAlphanum || c = '-') = true := by
          simp [h1, h3]
        rw [if_neg hcls]
        by_cases h4 : (lb.headD ' ' = '-' || lb.getLastD ' ' = '-') = true
        · simp only [h4, if_true]
          simp only [Bool.or_eq_true, decide_eq_true_eq,
            List.headD_eq_head?_getD, List.getLastD_eq_getLast?] at h4
          rcases h4 with h4 | h4 <;>
            simp [h1, h2', h3, h4, List.headD_eq_head?_getD,
              List.getLastD_eq_getLast?]
        · simp only [h4, if_false]
          simp only [Bool.or_eq_true, decide_eq_true_eq, not_or,
            List.headD_eq_head?_getD, List.getLastD_eq_getLast?] at h4
          simp [h1, h2', h3, h4.1, h4.2, List.headD_eq_head?_getD,
            List.getLastD_eq_getLast?]
      · have hcls : ¬ (decide (lb ≠ []) && lb.all fun c =>
            c.isAlphanum || c = '-') = true := by
          simp [h3]
        rw [if_pos (by simpa using hcls)]
        simp [h3]

theorem checkLabels_fst_iff : ∀ (parts : List (List Char)),
    (checkLabels parts).1 = true ↔ ∀ lb ∈ parts, checkLabel lb = none
  | [] => by simp [checkLabels]
  | l :: ls => by
    unfold checkLabels
    cases hc : checkLabel l with
    | some m => simp [hc]
    | none => simp [hc, checkLabels_fst_iff ls]

theorem checkLabels_true_snd : ∀ (parts : List (List Char)),
    (checkLabels parts).1 = true → (checkLabels parts).2 = []
  | [] => by simp [checkLabels]
  | l :: ls => by
    unfold checkLabels
    cases hc : checkLabel l with
    | some m => simp
    | none => exact checkLabels_true_snd ls

theorem matchHostCharClass_strip_iff (s : List Char) :
    matchHostCharClass (pyStrip s) = true ↔
      (pyStrip s ≠ [] ∧ ∀ c ∈ pyStrip s, isHostChar c = true) := by
  unfold matchHostCharClass
  rw [stripTrailingNl_pyStrip]
  simp [List.all_eq_true]

theorem matchDottedQuad_strip (s : List Char) :
    matchDottedQuad (pyStrip s) = dottedQuadShape (pyStrip s) := by
  unfold matchDottedQuad
  rw [stripTrailingNl_pyStrip]

theorem isHostChar_ne_nl {c : Char} (h : isHostChar c = true) : c ≠ '\n' := by
  intro he
  subst he
  exact absurd h (by decide)

/-- C3 counterexample: the claim's characterization requires the
trailing fields of a `127.x.x.x` form to be valid octets, but the code's
pattern `^127\.\d+\.\d+\.\d+$` accepts any digit runs: on the concrete
input `127.256.0.1` (whose second field 256 is not a valid octet, so
the claim says `false`) the classifier returns `true`. -/
theorem C3_counterexample :
    is_localhost_address "127.256.0.1".toList = true ∧
    claimedLocalhost "127.256.0.1".toList = false := by
  decide

/-- C3 amended: `isLocalhostAddress` returns true exactly when the input
is empty or, lowercased and trimmed, is exactly `localhost`, `::1`,
`0.0.0.0`, or of the form `127.b.c.d` where `b`, `c`, `d` are arbitrary
non-empty digit runs (not range-checked octets); the claim's concrete
examples hold as stated. -/
theorem C3_localhost_characterization :
    (∀ s, is_localhost_address s = amendedLocalhost s) ∧
    is_localhost_address "localhost".toList = true ∧
    is_localhost_address "LOCALHOST".toList = true ∧
    is_localhost_address "  localhost  ".toList = true ∧
    is_localhost_address [] = true ∧
    is_localhost_address "localhost.example.com".toList = false ∧
    is_localhost_address "mylocalhost".toList = false := by
  refine ⟨?_, by decide, by decide, by decide, by decide, by decide, by decide⟩
  intro s
  by_cases hs : s = []
  · simp [is_localhost_address, amendedLocalhost, hs]
  · unfold is_localhost_address amendedLocalhost
    rw [if_neg hs]
    simp only [List.any_cons, List.any_nil, Bool.or_false]
    unfold matchLocalhostPat match127Pat matchIpv6LoopbackPat matchUnspecifiedPat
    rw [stripTrailingNl_pyStrip]
    unfold digitRun
    simp only [hs, decide_False, Bool.false_or, Bool.or_assoc]

/-- C4 counterexample: the claim applies the character rule to the raw
input, so `" a"` (which contains a space, a character outside
`[A-Za-z0-9.-]`) should be invalid; the code strips the input first and
accepts it as `(true, "")`. -/
theorem C4_counterexample :
    validate_hostname " a".toList = (true, []) ∧
    (' ' ∈ " a".toList) ∧ isHostChar ' ' = false := by
  decide

/-- C4 amended: the rules apply in order with first failure winning,
but after the emptiness check the input is whitespace-trimmed and every
later rule reads the trimmed string: empty input → "empty" reason;
trimmed length over 253 → "too long"; trimmed string empty or with a
character outside `[A-Za-z0-9.-]` → "invalid characters"; a dotted-quad
shape is checked field-wise against `[0,255]` (leading zeros accepted);
otherwise a dotted name is valid exactly when every label is non-empty,
at most 63 characters, alphanumeric-or-hyphen and not starting or
ending with a hyphen; single-label non-IP strings are valid with reason
`""`; the claim's three concrete evaluations hold as stated. -/
theorem C4_validate_hostname_rules (s : List Char) :
    (s = [] → validate_hostname s = (false, "Hostname is empty".toList)) ∧
    (s ≠ [] → 253 < (pyStrip s).length →
      validate_hostname s =
        (false, "Hostname too long (max 253 characters)".toList)) ∧
    (s ≠ [] → (pyStrip s).length ≤ 253 →
      ¬ (pyStrip s ≠ [] ∧ ∀ c ∈ pyStrip s, isHostChar c = true) →
      validate_hostname s =
        (false, "Hostname contains invalid characters".toList)) ∧
    (s ≠ [] → (pyStrip s).length ≤ 253 →
      (∀ c ∈ pyStrip s, isHostChar c = true) →
      dottedQuadShape (pyStrip s) = true →
      ((splitOnChar '.' (pyStrip s)).all (fun p => digitsToNat p ≤ 255) = true →
        validate_hostname s = (true, [])) ∧
      ((splitOnChar '.' (pyStrip s)).all (fun p => digitsToNat p ≤ 255) = false →
        validate_hostname s = (false, "Invalid IP address format".toList))) ∧
    (s ≠ [] → (pyStrip s).length ≤ 253 → pyStrip s ≠ [] →
      (∀ c ∈ pyStrip s, isHostChar c = true) →
      dottedQuadShape (pyStrip s) = false →
      '.' ∈ pyStrip s →
      (((validate_hostname s).1 = true ↔
        (splitOnChar '.' (pyStrip s)).all labelOkSpec = true) ∧
       ((validate_hostname s).1 = true → (validate_hostname s).2 = []))) ∧
    (s ≠ [] → (pyStrip s).length ≤ 253 → pyStrip s ≠ [] →
      (∀ c ∈ pyStrip s, isHostChar c = true) →
      dottedQuadShape (pyStrip s) = false →
      '.' ∉ pyStrip s →
      validate_hostname s = (true, [])) ∧
    validate_hostname "256.1.1.1".toList =
      (false, "Invalid IP address format".toList) ∧
    validate_hostname (List.replicate 253 'a') = (true, []) ∧
    validate_hostname (List.replicate 254 'a') =
      (false, "Hostname too long (max 253 characters)".toList) := by
  refine ⟨?_, ?_, ?_, ?_, ?_, ?_, by decide, by decide, by decide⟩
  · intro h
    subst h
    rfl
  · intro hs hlen
    unfold validate_hostname
    rw [if_neg hs, if_pos hlen]
  · intro hs hlen hbad
    have hcls : ¬ matchHostCharClass (pyStrip s) = true :=
      fun hc => hbad ((matchHostCharClass_strip_iff s).mp hc)
    unfold validate_hostname
    rw [if_neg hs, if_neg (Nat.not_lt.mpr hlen), if_pos hcls]
  · intro hs hlen hcl hshape
    have hne : pyStrip s ≠ [] := by
      intro h0
      rw [h0] at hshape
      exact absurd hshape (by decide)
    have hcls : matchHostCharClass (pyStrip s) = true :=
      (matchHostCharClass_strip_iff s).mpr ⟨hne, hcl⟩
    have hquad : matchDottedQuad (pyStrip s) = true := by
      rw [matchDottedQuad_strip]
      exact hshape
    unfold validate_hostname
    rw [if_neg hs, if_neg (Nat.not_lt.mpr hlen),
      if_neg (not_not_intro hcls), if_pos hquad]
    constructor
    · intro hrange
      rw [if_pos ((quadPartsInRange_iff hshape).mpr hrange)]
    · intro hrange
      rw [if_neg (fun hq => absurd ((quadPartsInRange_iff hshape).mp hq)
        (by simp [hrange]))]
  · intro hs hlen hne hcl hnshape hdot
    have hcls : matchHostCharClass (pyStrip s) = true :=
      (matchHostCharClass_strip_iff s).mpr ⟨hne, hcl⟩
    have hquad : ¬ matchDottedQuad (pyStrip s) = true := by
      rw [matchDottedQuad_strip]
      simp [hnshape]
    have hcont : ((pyStrip s).contains '.') = true := by simp [hdot]
    have hroute : validate_hostname s =
        checkLabels (splitOnChar '.' (pyStrip s)) := by
      unfold validate_hostname
      rw [if_neg hs, if_neg (Nat.not_lt.mpr hlen),
        if_neg (not_not_intro hcls), if_neg hquad, if_pos hcont]
    have hlab : ∀ lb ∈ splitOnChar '.' (pyStrip s),
        (checkLabel lb = none ↔ labelOkSpec lb = true) := by
      intro lb hlb
      refine checkLabel_none_iff (fun c hc => ?_)
      have hmem := mem_splitOnChar hlb hc
      exact isHostChar_ne_nl (hcl c hmem.1)
    rw [hroute]
    constructor
    · rw [checkLabels_fst_iff, List.all_eq_true]
      constructor
      · intro h lb hlb
        exact (hlab lb hlb).mp (h lb hlb)
      · intro h lb hlb
        exact (hlab lb hlb).mpr (h lb hlb)
    · exact checkLabels_true_snd _
  · intro hs hlen hne hcl hnshape hdot
    have hcls : matchHostCharClass (pyStrip s) = true :=
      (matchHostCharClass_strip_iff s).mpr ⟨hne, hcl⟩
    have hquad : ¬ matchDottedQuad (pyStrip s) = true := by
      rw [matchDottedQuad_strip]
      simp [hnshape]
    have hcont : ¬ ((pyStrip s).contains '.') = true := by simp [hdot]
    unfold validate_hostname
    rw [if_neg hs, if_neg (Nat.not_lt.mpr hlen),
      if_neg (not_not_intro hcls), if_neg hquad, if_neg hcont]

/-- Witness for C4 at concrete inputs: the single-label rule accepts
`myhost`, and the dotted-name rule accepts `example.com`. -/
theorem C4_validate_hostname_rules_witness :
    validate_hostname "myhost".toList = (true, []) ∧
    (validate_hostname "example.com".toList).1 = true := by
  constructor
  · exact (C4_validate_hostname_rules "myhost".toList).2.2.2.2.2.1
      (by decide) (by decide) (by decide)
      (fun c hc => by revert c hc; decide) (by decide) (by decide)
  · exact ((C4_validate_hostname_rules "example.com".toList).2.2.2.2.1
      (by decide) (by decide) (by decide)
      (fun c hc => by revert c hc; decide) (by decide) (by decide)).1.mpr
      (by decide)

/-- C1: a non-empty `overrideHost` always yields `detectionMethod =
override` with the override returned verbatim, whatever the environment,
request host, probe behaviour or the override's own validity; with no
override, a non-empty `EXTERNAL_HOST` yields `env_var` with that value
(even when `SERVER_HOST` is also set), and otherwise a non-empty
`SERVER_HOST` yields `env_var` with its value. -/
theorem C1_priority_override_env (now : Int) (dis : Bool)
    (eh sh : Option (List Char)) (probe : ProbeOutcome)
    (rh oh : Option (List Char)) :
    (∀ o, oh = some o → o ≠ [] →
      (get_external_hostname now dis eh sh probe rh oh).detection_method =
        "override".toList ∧
      (get_external_hostname now dis eh sh probe rh oh).hostname = o) ∧
    (pyTruthy oh = none →
      (∀ e, eh = some e → e ≠ [] →
        (get_external_hostname now dis eh sh probe rh oh).detection_method =
          "env_var".toList ∧
        (get_external_hostname now dis eh sh probe rh oh).hostname = e) ∧
      (∀ s, pyTruthy eh = none → sh = some s → s ≠ [] →
        (get_external_hostname now dis eh sh probe rh oh).detection_method =
          "env_var".toList ∧
        (get_external_hostname now dis eh sh probe rh oh).hostname = s)) := by
  constructor
  · intro o ho hne
    have hto : pyTruthy oh = some o := by simp [pyTruthy, ho, hne]
    unfold get_external_hostname
    rw [hto]
    exact ⟨rfl, rfl⟩
  · intro hno
    constructor
    · intro e he hene
      have hte : envHost eh sh = some e := by
        simp [envHost, pyTruthy, he, hene]
      unfold get_external_hostname
      rw [hno, hte]
      exact ⟨rfl, rfl⟩
    · intro s hte hs hsne
      have hts : envHost eh sh = some s := by
        unfold envHost
        rw [hte]
        simp [pyTruthy, hs, hsne]
      unfold get_external_hostname
      rw [hno, hts]
      exact ⟨rfl, rfl⟩

/-- Witness for C1 at concrete inputs: the override wins over a set
environment and request host; with no override, `EXTERNAL_HOST` wins
over `SERVER_HOST`. -/
theorem C1_priority_override_env_witness :
    (get_external_hostname 0 false (some "env.example.com".toList)
        (some "srv.example.com".toList) (.exc [])
        (some "req.example.com:80".toList)
        (some "ov.example.com".toList)).hostname = "ov.example.com".toList ∧
    (get_external_hostname 0 false (some "env.example.com".toList)
        (some "srv.example.com".toList) (.exc []) none none).hostname =
      "env.example.com".toList := by
  constructor
  · exact ((C1_priority_override_env 0 false (some "env.example.com".toList)
      (some "srv.example.com".toList) (.exc [])
      (some "req.example.com:80".toList) (some "ov.example.com".toList)).1
      "ov.example.com".toList rfl (by decide)).2
  · exact (((C1_priority_override_env 0 false (some "env.example.com".toList)
      (some "srv.example.com".toList) (.exc []) none none).2 rfl).1
      "env.example.com".toList rfl (by decide)).2

/-- C2: `getExternalHostname` always produces a `HostnameResult` (its
detection method is one of the five tiers — there is no failure path),
and an exception escaping the tier-3 probe call is caught, recorded as
an `External IP detection failed` warning, and resolution falls through
to tiers 4–5. -/
theorem C2_no_failure_path (now : Int) (dis : Bool)
    (eh sh : Option (List Char)) (probe : ProbeOutcome)
    (rh oh : Option (List Char)) :
    ((get_external_hostname now dis eh sh probe rh oh).detection_method ∈
      ["override".toList, "env_var".toList, "external_ip".toList,
       "request_host".toList, "fallback".toList]) ∧
    (∀ msg, probe = .exc msg → pyTruthy oh = none → envHost eh sh = none →
      dis = false →
      ("External IP detection failed: ".toList ++ msg) ∈
        (get_external_hostname now dis eh sh probe rh oh).warnings ∧
      ((get_external_hostname now dis eh sh probe rh oh).detection_method =
         "request_host".toList ∨
       (get_external_hostname now dis eh sh probe rh oh).detection_method =
         "fallback".toList)) := by
  constructor
  · unfold get_external_hostname
    cases hpt : pyTruthy oh with
    | some o => exact List.mem_cons_self _ _
    | none =>
      cases hev : envHost eh sh with
      | some h => exact List.mem_cons_of_mem _ (List.mem_cons_self _ _)
      | none =>
        cases dis with
        | true =>
          show (requestHostTiers now [] rh).detection_method ∈ _
          rcases requestHostTiers_method now [] rh with h | h <;>
            rw [h] <;> decide
        | false =>
          cases probe with
          | value r =>
            cases r with
            | some ip =>
              exact List.mem_cons_of_mem _ (List.mem_cons_of_mem _
                (List.mem_cons_self _ _))
            | none =>
              show (requestHostTiers now [] rh).detection_method ∈ _
              rcases requestHostTiers_method now [] rh with h | h <;>
                rw [h] <;> decide
          | exc m =>
            show (requestHostTiers now
              ["External IP detection failed: ".toList ++ m] rh).detection_method ∈ _
            rcases requestHostTiers_method now
              ["External IP detection failed: ".toList ++ m] rh with h | h <;>
              rw [h] <;> decide
  · intro msg hpe hoh henv hdis
    subst hpe
    subst hdis
    unfold get_external_hostname
    rw [hoh, henv]
    refine ⟨?_, ?_⟩
    · exact requestHostTiers_warnings_carry now _ rh _ (by simp)
    · exact requestHostTiers_method now _ rh

/-- Witness for C2 at concrete inputs: a probe exception with no
override and no environment host surfaces as a warning and resolution
still returns a request-host result. -/
theorem C2_no_failure_path_witness :
    ("External IP detection failed: boom".toList ∈
      (get_external_hostname 0 false none none (.exc "boom".toList)
        (some "req.example.com:80".toList) none).warnings) ∧
    (get_external_hostname 0 false none none (.exc "boom".toList)
        (some "req.example.com:80".toList) none).detection_method ∈
      ["override".toList, "env_var".toList, "external_ip".toList,
       "request_host".toList, "fallback".toList] := by
  have h := C2_no_failure_path 0 false none none (.exc "boom".toList)
    (some "req.example.com:80".toList) none
  have h2 := h.2 "boom".toList rfl rfl rfl rfl
  have heq : "External IP detection failed: ".toList ++ "boom".toList =
      "External IP detection failed: boom".toList := by decide
  exact ⟨heq ▸ h2.1, h.1⟩

/-- C7: with no override, no environment host, and probing disabled, a
request host `opentakserver-core:8080` resolves to the port-stripped
host via the `request_host` tier (externally accessible, not
localhost), while `localhost:8080` falls through to the `fallback` tier
as `localhost` with at least two warnings including the generic
fallback warning and the `EXTERNAL_HOST` remediation hint. -/
theorem C7_end_to_end_scenarios :
    (get_external_hostname 0 true none none (.value none)
        (some "opentakserver-core:8080".toList) none =
      ⟨"opentakserver-core".toList, "request_host".toList, false, true,
       [], 0⟩) ∧
    ((get_external_hostname 0 true none none (.value none)
        (some "localhost:8080".toList) none).hostname =
      "localhost".toList ∧
     (get_external_hostname 0 true none none (.value none)
        (some "localhost:8080".toList) none).detection_method =
      "fallback".toList ∧
     (get_external_hostname 0 true none none (.value none)
        (some "localhost:8080".toList) none).is_localhost = true ∧
     (get_external_hostname 0 true none none (.value none)
        (some "localhost:8080".toList) none).is_external_accessible = false ∧
     2 ≤ (get_external_hostname 0 true none none (.value none)
        (some "localhost:8080".toList) none).warnings.length ∧
     "Using fallback hostname - QR code may not work for external clients".toList ∈
       (get_external_hostname 0 true none none (.value none)
         (some "localhost:8080".toList) none).warnings ∧
     "Consider setting EXTERNAL_HOST environment variable or providing server_host parameter".toList ∈
       (get_external_hostname 0 true none none (.value none)
         (some "localhost:8080".toList) none).warnings) := by
  decide

theorem list_isEmpty_iff {α : Type} (l : List α) :
    l.isEmpty = true ↔ l = [] := by
  cases l <;> simp

theorem finishQrLength_fst_iff (qr : List Char) (errs : List (List Char))
    (d : QRDetails) :
    (finishQrLength qr errs d).1 = true ↔ (finishQrLength qr errs d).2.1 = [] := by
  unfold finishQrLength
  by_cases h1 : 2048 < qr.length
  · simp only [h1, if_true]
    exact list_isEmpty_iff _
  · simp only [h1, if_false]
    by_cases h2 : 1024 < qr.length
    · simp only [h2, if_true]
      exact list_isEmpty_iff _
    · simp only [h2, if_false]
      exact list_isEmpty_iff _

/-- C8 counterexample: with `username=` empty, the query decoder
(`parse_qs` with its default of dropping blank values) never records
the key, so the validator reports `Missing required parameter:
username` — the claimed `Empty parameter: username` error is not
emitted. -/
theorem C8_counterexample :
    (validate_itak_qr_format
      "tak://com.atakmap.app/enroll?host=example.com&username=&token=pass".toList).1
      = false ∧
    "Missing required parameter: username".toList ∈
      (validate_itak_qr_format
        "tak://com.atakmap.app/enroll?host=example.com&username=&token=pass".toList).2.1 ∧
    "Empty parameter: username".toList ∉
      (validate_itak_qr_format
        "tak://com.atakmap.app/enroll?host=example.com&username=&token=pass".toList).2.1 := by
  decide

/-- C8 amended: `validateItakQrFormat` requires a present query that,
once decoded (where the decoder drops blank-valued fields), contains
values for all three required keys `host`, `username`, `token`, emitting
one error per missing key without short-circuiting, and returns
`valid = (errorCount == 0)`; the canonical enrollment string validates
with no errors; the `http` scheme variant is invalid with a single
scheme error; and the empty-`username` variant is invalid with a
`Missing required parameter: username` error (blank values register as
missing, not empty). -/
theorem C8_itak_qr_validation :
    (∀ s, (validate_itak_qr_format s).1 = true ↔
      (validate_itak_qr_format s).2.1 = []) ∧
    (validate_itak_qr_format
      "tak://com.atakmap.app/enroll?host=example.com&username=user&token=pass".toList).1
      = true ∧
    (validate_itak_qr_format
      "tak://com.atakmap.app/enroll?host=example.com&username=user&token=pass".toList).2.1
      = [] ∧
    (validate_itak_qr_format
      "http://com.atakmap.app/enroll?host=example.com&username=user&token=pass".toList).1
      = false ∧
    (validate_itak_qr_format
      "http://com.atakmap.app/enroll?host=example.com&username=user&token=pass".toList).2.1
      = ["Invalid iTAK URL scheme. Must start with ".toList ++ [sq] ++
         "tak://com.atakmap.app/enroll?".toList ++ [sq]] ∧
    (validate_itak_qr_format
      "tak://com.atakmap.app/enroll?host=example.com&username=&token=pass".toList).1
      = false ∧
    "Missing required parameter: username".toList ∈
      (validate_itak_qr_format
        "tak://com.atakmap.app/enroll?host=example.com&username=&token=pass".toList).2.1 ∧
    (validate_itak_qr_format "tak://com.atakmap.app/enroll?x=1".toList).2.1
      = ["Missing required parameter: host".toList,
         "Missing required parameter: username".toList,
         "Missing required parameter: token".toList] := by
  refine ⟨?_, by decide, by decide, by decide, by decide, by decide,
    by decide, by decide⟩
  intro s
  simp only [validate_itak_qr_format]
  split
  · simp
  · split
    · simp
    · split
      · simp
      · split
        · exact finishQrLength_fst_iff _ _ _
        · exact finishQrLength_fst_iff _ _ _

/-- C9 counterexample: the QR validator's hostname predicate and the
resolver's `validateHostname` already disagree at the concrete host
`256.1.1.1` — the QR predicate accepts it (so the enrollment string
carrying it validates with no `Invalid hostname format` error) while
`validateHostname` rejects it. -/
theorem C9_counterexample :
    ¬ (is_valid_hostname_format "256.1.1.1".toList =
       (validate_hostname "256.1.1.1".toList).1) ∧
    (validate_itak_qr_format
      "tak://com.atakmap.app/enroll?host=256.1.1.1&username=user&token=pass".toList).2.1
      = [] := by
  decide

/-- C9 amended: the `Invalid hostname format` error of the QR validator
tracks the QR validator's own predicate, which is not extensionally
equal to §4.2's `validateHostname`: it accepts `256.1.1.1` (accepted by
its RFC-1123 label regex; no error emitted, the QR string validates)
while `validateHostname` rejects it, and it rejects `-bad-` (error
emitted) while `validateHostname` accepts it as a bare single label. -/
theorem C9_hostname_check_divergence :
    is_valid_hostname_format "256.1.1.1".toList = true ∧
    (validate_hostname "256.1.1.1".toList).1 = false ∧
    (validate_itak_qr_format
      "tak://com.atakmap.app/enroll?host=256.1.1.1&username=user&token=pass".toList).1
      = true ∧
    (validate_itak_qr_format
      "tak://com.atakmap.app/enroll?host=256.1.1.1&username=user&token=pass".toList).2.1
      = [] ∧
    is_valid_hostname_format "-bad-".toList = false ∧
    (validate_hostname "-bad-".toList).1 = true ∧
    (validate_itak_qr_format
      "tak://com.atakmap.app/enroll?host=-bad-&username=user&token=pass".toList).1
      = false ∧
    "Invalid hostname format: -bad-".toList ∈
      (validate_itak_qr_format
        "tak://com.atakmap.app/enroll?host=-bad-&username=user&token=pass".toList).2.1 := by
  decide

/-- Witness for C10 at concrete inputs: with an empty (well-formed)
cache and a first service answering `203.0.113.9`, the returned IP is a
strict quad, is the cached IP, and tier 3 wraps it verbatim. -/
theorem C10_external_ip_invariant_witness :
    (is_strict_ipv4_quad "203.0.113.9".toList = true ∧
     ∃ e, (some (⟨"203.0.113.9".toList, 0,
         "https://api.ipify.org".toList⟩ : CacheEntry)) = some e ∧
       e.ip = "203.0.113.9".toList) ∧
    get_external_hostname 0 false none none
        (.value (some "203.0.113.9".toList)) none none =
      ⟨"203.0.113.9".toList, "external_ip".toList, false, true, [], 0⟩ := by
  have hrun : get_external_ip 300 0 none
      (fun _ => .respond "203.0.113.9".toList) =
      (some "203.0.113.9".toList,
       some ⟨"203.0.113.9".toList, 0, "https://api.ipify.org".toList⟩, 1) := by
    decide
  have hwf : cacheWF none := fun e he => by cases he
  constructor
  · exact C10_external_ip_invariant.1 300 0 none
      (fun _ => .respond "203.0.113.9".toList) "203.0.113.9".toList _ 1 hwf hrun
  · exact (C10_external_ip_invariant.2 300 0 none
      (fun _ => .respond "203.0.113.9".toList) "203.0.113.9".toList _ 1
      none none none none hwf hrun rfl rfl).1

end OTS
